import Mathlib

/-!
Shallow embedding of src/dot11/header.rs (802.11 MAC-frame header decoding).

Bytes are modelled as Nat (values < 256 in every real input); byte buffers as
List Nat. The in-memory readers of the Rust code (bytes::Buf::reader over a
Bytes value, std::io::Cursor) have these exact semantics:
  - std::io::Read::read into a zero-initialized n-byte array fills the first
    min(n, remaining) bytes, leaves the tail 0, consumes what it read, and
    NEVER returns an error (modelled by readFill);
  - bytes::Buf::get_u8 asserts at least one remaining byte and panics
    otherwise (modelled by the panicked outcome of RunResult);
  - io::copy drains the remaining bytes and never fails for these readers.
-/

/-- Outcome of running a fallible Rust function: a panic (assertion failure /
unwrap on Err), an error-chain error carrying its message, or a value. -/
inductive RunResult (α : Type) where
  | panicked : RunResult α
  | error : String → RunResult α
  | ok : α → RunResult α
deriving DecidableEq

/-- True exactly on the error outcome. -/
def RunResult.isError {α : Type} : RunResult α → Bool
  | .error _ => true
  | _ => false

/-- Model of std::io::Read::read over an in-memory reader, reading into a
fresh zero-initialized buffer of n bytes: first component is the buffer after
the read (prefix of the stream, zero-padded to n), second is the rest of the
stream. -/
def readFill (n : Nat) (s : List Nat) : List Nat × List Nat :=
  (s.take n ++ List.replicate (n - s.length) 0, s.drop n)

/-- The n-byte window the reader sees at offset off of buffer s: the available
bytes, zero-padded to length n (what a chain of readFill calls produces). -/
def sliceZ (s : List Nat) (off n : Nat) : List Nat :=
  (s.drop off).take n ++ List.replicate (n - (s.drop off).length) 0

/-- FrameType (src/dot11/header.rs). -/
inductive FrameType where
  | Management
  | Control
  | Data
  | Unknown
deriving DecidableEq

/-- FrameSubType (src/dot11/header.rs). -/
inductive FrameSubType where
  | AssoReq
  | AssoResp
  | ReassoReq
  | ReassoResp
  | ProbeReq
  | ProbeResp
  | Beacon
  | Atim
  | Disasso
  | Auth
  | Deauth
  | Data
  | DataCfAck
  | DataCfPull
  | DataCfAckCfPull
  | NullData
  | CfAck
  | CfPull
  | CfAckCfPull
  | QoS
  | QoSCfPull
  | QoSCfAckCfPull
  | QoSNullData
  | Reserved
  | UnHandled
deriving DecidableEq

/-- FrameControl (src/dot11/header.rs). -/
structure FrameControl where
  frame_type : FrameType
  frame_subtype : FrameSubType
  to_ds : Bool
  from_ds : Bool
  more_flag : Bool
  retry : Bool
  pwr_mgmt : Bool
  more_data : Bool
  wep : Bool
  order : Bool
deriving DecidableEq

/-- Modelled from the spec: flag_is_set (crate::util, not under src/).
Spec 4.1(4): byte 1, bits 0-7 each map to one independent boolean flag;
flag_is_set flags i tests bit i of the flags byte. -/
def flag_is_set (flags : Nat) (bit : Nat) : Bool :=
  Nat.testBit flags bit

/-- FrameControl::protocol_version: low 2 bits of the first byte. -/
def FrameControl.protocol_version (packet : Nat) : Nat :=
  packet &&& 0b00000011

/-- FrameControl::frame_type (the associated function; renamed with the
_of suffix because the structure projection already takes the source name). -/
def FrameControl.frame_type_of (packet : Nat) : FrameType :=
  match (packet &&& 0b00001100) >>> 2 with
  | 0 => FrameType.Management
  | 1 => FrameType.Control
  | 2 => FrameType.Data
  | _ => FrameType.Unknown

/-- FrameControl::frame_subtype (the associated function; renamed with the
_of suffix because the structure projection already takes the source name). -/
def FrameControl.frame_subtype_of (packet : Nat) : FrameSubType :=
  match (packet &&& 0b11110000) >>> 4 with
  | 0 => FrameSubType.AssoReq
  | 1 => FrameSubType.AssoResp
  | 2 => FrameSubType.ReassoReq
  | 3 => FrameSubType.ReassoResp
  | 4 => FrameSubType.ProbeReq
  | 5 => FrameSubType.ProbeResp
  | 8 => FrameSubType.Beacon
  | 9 => FrameSubType.Atim
  | 10 => FrameSubType.Disasso
  | 11 => FrameSubType.Auth
  | 12 => FrameSubType.Deauth
  | _ => FrameSubType.UnHandled

/-- FrameControl::data_frame_subtype. -/
def FrameControl.data_frame_subtype (packet : Nat) : FrameSubType :=
  match (packet &&& 0b11110000) >>> 4 with
  | 0 => FrameSubType.Data
  | 1 => FrameSubType.DataCfAck
  | 2 => FrameSubType.DataCfPull
  | 3 => FrameSubType.DataCfAckCfPull
  | 4 => FrameSubType.NullData
  | 5 => FrameSubType.CfAck
  | 6 => FrameSubType.CfPull
  | 7 => FrameSubType.CfAckCfPull
  | 8 => FrameSubType.QoS
  | 10 => FrameSubType.QoSCfPull
  | 11 => FrameSubType.QoSCfAckCfPull
  | 12 => FrameSubType.QoSNullData
  | 13 => FrameSubType.Reserved
  | _ => FrameSubType.UnHandled

/-- FrameControl::from_bytes. The two get_u8 calls panic when fewer than
2 bytes are available; with 2 bytes read, a nonzero protocol version is a
bail! error, otherwise the FrameControl is assembled. -/
def FrameControl.from_bytes (input : List Nat) : RunResult FrameControl :=
  match input with
  | b0 :: b1 :: _ =>
    if FrameControl.protocol_version b0 ≠ 0 then
      RunResult.error "Unknow protocol version"
    else
      RunResult.ok
        { frame_type := FrameControl.frame_type_of b0
          frame_subtype :=
            match FrameControl.frame_type_of b0 with
            | FrameType.Management => FrameControl.frame_subtype_of b0
            | FrameType.Data => FrameControl.data_frame_subtype b0
            | FrameType.Control => FrameControl.frame_subtype_of b0
            | FrameType.Unknown => FrameControl.frame_subtype_of b0
          to_ds := flag_is_set b1 0
          from_ds := flag_is_set b1 1
          more_flag := flag_is_set b1 2
          retry := flag_is_set b1 3
          pwr_mgmt := flag_is_set b1 4
          more_data := flag_is_set b1 5
          wep := flag_is_set b1 6
          order := flag_is_set b1 7 }
  | _ => RunResult.panicked

/-- hex digit character: 0-9 then lowercase a-f (as Rust {:02x}). -/
def hexDigit (n : Nat) : Char :=
  if n < 10 then Char.ofNat (48 + n) else Char.ofNat (87 + n)

/-- Two lowercase hex digits of a byte (Rust format {:02x} on u8). -/
def hex2 (b : Nat) : String :=
  String.mk [hexDigit (b / 16 % 16), hexDigit (b % 16)]

/-- MACField (src/dot11/header.rs). -/
structure MACField where
  addr : String
deriving DecidableEq

/-- MACField::from_slice: formats s[0]..s[5] as xx:xx:xx:xx:xx:xx. Every
caller in the source supplies exactly 6 bytes (Rust would panic on fewer;
that case never arises and is modelled with getD). -/
def MACField.from_slice (s : List Nat) : MACField :=
  { addr := String.intercalate ":"
      [hex2 (s.getD 0 0), hex2 (s.getD 1 0), hex2 (s.getD 2 0),
       hex2 (s.getD 3 0), hex2 (s.getD 4 0), hex2 (s.getD 5 0)] }

/-- FrameAddresses (src/dot11/header.rs). -/
structure FrameAddresses where
  addr1 : MACField
  addr2 : MACField
  addr3 : MACField
  addr4 : MACField
deriving DecidableEq

/-- FrameAddresses::from_bytes: five sequential read calls (6,6,6,2,6 bytes)
into zero-initialized buffers; read never fails on an in-memory reader, so the
result is always ok, missing bytes reading as 0. The 2-byte seq_ctl read is
performed but its buffer is dropped, exactly as in the source. -/
def FrameAddresses.from_bytes (s : List Nat) : RunResult FrameAddresses :=
  let r1 := readFill 6 s
  let addr1 := MACField.from_slice r1.1
  let r2 := readFill 6 r1.2
  let addr2 := MACField.from_slice r2.1
  let r3 := readFill 6 r2.2
  let addr3 := MACField.from_slice r3.1
  let r4 := readFill 2 r3.2
  let r5 := readFill 6 r4.2
  let addr4 := MACField.from_slice r5.1
  RunResult.ok { addr1 := addr1, addr2 := addr2, addr3 := addr3, addr4 := addr4 }

/-- Modelled from the spec: Beacon body decoder (src/dot11/info.rs, not under
src/). Spec 4.4: accepts a byte slice, returns a typed body value infallibly;
the decoded value is kept opaque as its input bytes. -/
structure Beacon where
  bytes : List Nat
deriving DecidableEq

/-- Modelled from the spec: infallible Beacon::from_bytes. -/
def Beacon.from_bytes (input : List Nat) : Beacon :=
  { bytes := input }

/-- Modelled from the spec: ProbeRequest body decoder (src/dot11/info.rs,
not under src/), kept opaque as its input bytes. -/
structure ProbeRequest where
  bytes : List Nat
deriving DecidableEq

/-- Modelled from the spec: infallible ProbeRequest::from_bytes. -/
def ProbeRequest.from_bytes (input : List Nat) : ProbeRequest :=
  { bytes := input }

/-- Modelled from the spec: ProbeResponse body decoder (src/dot11/info.rs,
not under src/), kept opaque as its input bytes. -/
structure ProbeResponse where
  bytes : List Nat
deriving DecidableEq

/-- Modelled from the spec: infallible ProbeResponse::from_bytes. -/
def ProbeResponse.from_bytes (input : List Nat) : ProbeResponse :=
  { bytes := input }

/-- Modelled from the spec: AssociationRequest body decoder
(src/dot11/info.rs, not under src/), kept opaque as its input bytes. -/
structure AssociationRequest where
  bytes : List Nat
deriving DecidableEq

/-- Modelled from the spec: infallible AssociationRequest::from_bytes. -/
def AssociationRequest.from_bytes (input : List Nat) : AssociationRequest :=
  { bytes := input }

/-- Modelled from the spec: AssociationResponse body decoder
(src/dot11/info.rs, not under src/), kept opaque as its input bytes. -/
structure AssociationResponse where
  bytes : List Nat
deriving DecidableEq

/-- Modelled from the spec: infallible AssociationResponse::from_bytes. -/
def AssociationResponse.from_bytes (input : List Nat) : AssociationResponse :=
  { bytes := input }

/-- BodyInformation (src/dot11/info.rs; variants as used by the source and
described in spec section 3). -/
inductive BodyInformation where
  | Beacon : Beacon → BodyInformation
  | ProbeRequest : ProbeRequest → BodyInformation
  | ProbeResponse : ProbeResponse → BodyInformation
  | AssociationRequest : AssociationRequest → BodyInformation
  | AssociationResponse : AssociationResponse → BodyInformation
  | UnHandled : Bool → BodyInformation
deriving DecidableEq

/-- Dot11Header (src/dot11/header.rs). duration and seq_ctl are the raw
2-byte arrays. -/
structure Dot11Header where
  frame_control : FrameControl
  duration : List Nat
  dst : String
  src : String
  bssid : String
  seq_ctl : List Nat
  info : BodyInformation
deriving DecidableEq

/-- Dot11Header::parse_address. FrameAddresses::from_bytes always returns ok,
so the unwrap never panics; the catch-all arm is that unreachable unwrap. -/
def Dot11Header.parse_address (frame_control : FrameControl)
    (input : List Nat) : String × String × String :=
  match FrameAddresses.from_bytes input with
  | RunResult.ok addresses =>
    if frame_control.to_ds && frame_control.from_ds then
      (addresses.addr3.addr, addresses.addr4.addr, "")
    else if frame_control.to_ds then
      (addresses.addr2.addr, addresses.addr3.addr, addresses.addr1.addr)
    else if frame_control.from_ds then
      (addresses.addr3.addr, addresses.addr1.addr, addresses.addr2.addr)
    else
      (addresses.addr1.addr, addresses.addr2.addr, addresses.addr3.addr)
  | _ => ("", "", "")

/-- Dot11Header::parse_body. -/
def Dot11Header.parse_body (frame_control : FrameControl)
    (input : List Nat) : BodyInformation :=
  match frame_control.frame_type with
  | FrameType.Management =>
    if frame_control.frame_subtype = FrameSubType.Beacon then
      BodyInformation.Beacon (Beacon.from_bytes input)
    else if frame_control.frame_subtype = FrameSubType.ProbeReq then
      BodyInformation.ProbeRequest (ProbeRequest.from_bytes input)
    else if frame_control.frame_subtype = FrameSubType.ProbeResp then
      BodyInformation.ProbeResponse (ProbeResponse.from_bytes input)
    else if frame_control.frame_subtype = FrameSubType.AssoReq then
      BodyInformation.AssociationRequest (AssociationRequest.from_bytes input)
    else if frame_control.frame_subtype = FrameSubType.AssoResp then
      BodyInformation.AssociationResponse (AssociationResponse.from_bytes input)
    else
      BodyInformation.UnHandled true
  | _ => BodyInformation.UnHandled true

/-- Dot11Header::from_bytes: reads 2 (control), 2 (duration), 18 (window for
parse_address), 2 (seq_ctl) bytes, then io::copy drains the rest as body.
Each read zero-pads; only FrameControl::from_bytes can abort the decode. -/
def Dot11Header.from_bytes (input : List Nat) : RunResult Dot11Header :=
  let rc := readFill 2 input
  match FrameControl.from_bytes rc.1 with
  | RunResult.panicked => RunResult.panicked
  | RunResult.error m => RunResult.error m
  | RunResult.ok frame_control =>
    let rd := readFill 2 rc.2
    let rm := readFill 18 rd.2
    let triple := Dot11Header.parse_address frame_control rm.1
    let rs := readFill 2 rm.2
    let dst2 := rs.2
    let body_information := Dot11Header.parse_body frame_control dst2
    RunResult.ok
      { frame_control := frame_control
        duration := rd.1
        dst := triple.1
        src := triple.2.1
        bssid := triple.2.2
        seq_ctl := rs.1
        info := body_information }

/-- Modelled from the spec: the slicing scheme that spec section 4.5 claims
Dot11Header::from_bytes uses — control = bytes 0:2, duration = bytes 2:4, a
24-byte window bytes 4:28 handed to address resolution, seq_ctl = bytes
28:30, body = bytes 30 onward. Kept side by side with Dot11Header.from_bytes
to compare the claimed slicing with the real one. -/
def from_bytes_slicing_spec (input : List Nat) : RunResult Dot11Header :=
  match FrameControl.from_bytes (sliceZ input 0 2) with
  | RunResult.panicked => RunResult.panicked
  | RunResult.error m => RunResult.error m
  | RunResult.ok frame_control =>
    let triple := Dot11Header.parse_address frame_control (sliceZ input 4 24)
    RunResult.ok
      { frame_control := frame_control
        duration := sliceZ input 2 2
        dst := triple.1
        src := triple.2.1
        bssid := triple.2.2
        seq_ctl := sliceZ input 28 2
        info := Dot11Header.parse_body frame_control (List.drop 30 input) }

/-- Modelled from the spec: the type-dependent subtype code table of
spec section 4.1 step 3 — one table for the Data type, another for
Management, Control and Unknown. -/
def subtype_code_table_spec (t : FrameType) (code : Nat) : FrameSubType :=
  match t with
  | FrameType.Data =>
    match code with
    | 0 => FrameSubType.Data
    | 1 => FrameSubType.DataCfAck
    | 2 => FrameSubType.DataCfPull
    | 3 => FrameSubType.DataCfAckCfPull
    | 4 => FrameSubType.NullData
    | 5 => FrameSubType.CfAck
    | 6 => FrameSubType.CfPull
    | 7 => FrameSubType.CfAckCfPull
    | 8 => FrameSubType.QoS
    | 10 => FrameSubType.QoSCfPull
    | 11 => FrameSubType.QoSCfAckCfPull
    | 12 => FrameSubType.QoSNullData
    | 13 => FrameSubType.Reserved
    | _ => FrameSubType.UnHandled
  | _ =>
    match code with
    | 0 => FrameSubType.AssoReq
    | 1 => FrameSubType.AssoResp
    | 2 => FrameSubType.ReassoReq
    | 3 => FrameSubType.ReassoResp
    | 4 => FrameSubType.ProbeReq
    | 5 => FrameSubType.ProbeResp
    | 8 => FrameSubType.Beacon
    | 9 => FrameSubType.Atim
    | 10 => FrameSubType.Disasso
    | 11 => FrameSubType.Auth
    | 12 => FrameSubType.Deauth
    | _ => FrameSubType.UnHandled

/-- Modelled from the spec: frame type as a function of bits 3:2 of byte 0
only (spec section 4.1 step 2): 0 Management, 1 Control, 2 Data,
other Unknown. -/
def frame_type_bits_spec (b0 : Nat) : FrameType :=
  match (b0 >>> 2) % 4 with
  | 0 => FrameType.Management
  | 1 => FrameType.Control
  | 2 => FrameType.Data
  | _ => FrameType.Unknown

/-- A FrameControl with both DS flags set (the WDS case), used as concrete
test input for the address-resolution claims. -/
def fcTT : FrameControl :=
  { frame_type := FrameType.Management
    frame_subtype := FrameSubType.AssoReq
    to_ds := true
    from_ds := true
    more_flag := false
    retry := false
    pwr_mgmt := false
    more_data := false
    wep := false
    order := false }

/-- Concrete 34-byte frame with pairwise distinct bytes from offset 2 on:
byte 0 = 0 (protocol version 0), byte 1 = 0 (all flags clear), byte i = i
for i from 2 to 33. -/
def c2input : List Nat :=
  0 :: 0 :: (List.range 32).map (fun i => i + 2)

/-- The header Dot11Header.from_bytes produces on c2input. -/
def c2header : Dot11Header :=
  { frame_control :=
      { frame_type := FrameType.Management
        frame_subtype := FrameSubType.AssoReq
        to_ds := false
        from_ds := false
        more_flag := false
        retry := false
        pwr_mgmt := false
        more_data := false
        wep := false
        order := false }
    duration := [2, 3]
    dst := "04:05:06:07:08:09"
    src := "0a:0b:0c:0d:0e:0f"
    bssid := "10:11:12:13:14:15"
    seq_ctl := [22, 23]
    info := BodyInformation.AssociationRequest
      { bytes := [24, 25, 26, 27, 28, 29, 30, 31, 32, 33] } }

/-- Concrete 30-byte frame: control 0, flags byte 3 (to_ds and from_ds set),
then 28 bytes of value 7. -/
def c5input : List Nat :=
  0 :: 3 :: List.replicate 28 7

/-- The header Dot11Header.from_bytes produces on c5input. -/
def c5header : Dot11Header :=
  { frame_control :=
      { frame_type := FrameType.Management
        frame_subtype := FrameSubType.AssoReq
        to_ds := true
        from_ds := true
        more_flag := false
        retry := false
        pwr_mgmt := false
        more_data := false
        wep := false
        order := false }
    duration := [7, 7]
    dst := "07:07:07:07:07:07"
    src := "00:00:00:00:00:00"
    bssid := ""
    seq_ctl := [7, 7]
    info := BodyInformation.AssociationRequest { bytes := [7, 7, 7, 7, 7, 7] } }


/-! ## Helper lemmas -/

theorem from_bytes_eq (input : List Nat) :
    Dot11Header.from_bytes input =
      match FrameControl.from_bytes (sliceZ input 0 2) with
      | RunResult.panicked => RunResult.panicked
      | RunResult.error m => RunResult.error m
      | RunResult.ok fc =>
        RunResult.ok
          { frame_control := fc
            duration := sliceZ input 2 2
            dst := (Dot11Header.parse_address fc (sliceZ input 4 18)).1
            src := (Dot11Header.parse_address fc (sliceZ input 4 18)).2.1
            bssid := (Dot11Header.parse_address fc (sliceZ input 4 18)).2.2
            seq_ctl := sliceZ input 22 2
            info := Dot11Header.parse_body fc (List.drop 24 input) } := by
  simp only [Dot11Header.from_bytes, sliceZ, readFill, List.drop_zero, List.drop_drop]

theorem sliceZ_length (s : List Nat) (off n : Nat) : (sliceZ s off n).length = n := by
  simp only [sliceZ, List.length_append, List.length_take, List.length_replicate]
  omega

theorem readFill_exact (n : Nat) (a b : List Nat) (h : a.length = n) :
    readFill n (a ++ b) = (a, b) := by
  subst h
  simp [readFill, List.take_left, List.drop_left]

theorem readFill_all (n : Nat) (a : List Nat) (h : a.length = n) :
    readFill n a = (a, []) := by
  subst h
  simp [readFill]

theorem fc_from_bytes_ok (b0 b1 : Nat) (h0 : FrameControl.protocol_version b0 = 0) :
    FrameControl.from_bytes [b0, b1] = RunResult.ok
      { frame_type := FrameControl.frame_type_of b0
        frame_subtype :=
          match FrameControl.frame_type_of b0 with
          | FrameType.Management => FrameControl.frame_subtype_of b0
          | FrameType.Data => FrameControl.data_frame_subtype b0
          | FrameType.Control => FrameControl.frame_subtype_of b0
          | FrameType.Unknown => FrameControl.frame_subtype_of b0
        to_ds := flag_is_set b1 0
        from_ds := flag_is_set b1 1
        more_flag := flag_is_set b1 2
        retry := flag_is_set b1 3
        pwr_mgmt := flag_is_set b1 4
        more_data := flag_is_set b1 5
        wep := flag_is_set b1 6
        order := flag_is_set b1 7 } := by
  simp [FrameControl.from_bytes, h0]

/-! ## Claim theorems -/

/-- Claim C1 (code bug): contrary to the claim that every input shorter than
30 bytes fails with TruncatedInput, Dot11Header::from_bytes on the 10-byte
all-zero buffer succeeds, returning a header whose missing bytes all read
as zero. -/
theorem c1_truncated_input_accepted :
    Dot11Header.from_bytes (List.replicate 10 0) = RunResult.ok
      { frame_control :=
          { frame_type := FrameType.Management
            frame_subtype := FrameSubType.AssoReq
            to_ds := false
            from_ds := false
            more_flag := false
            retry := false
            pwr_mgmt := false
            more_data := false
            wep := false
            order := false }
        duration := [0, 0]
        dst := "00:00:00:00:00:00"
        src := "00:00:00:00:00:00"
        bssid := "00:00:00:00:00:00"
        seq_ctl := [0, 0]
        info := BodyInformation.AssociationRequest { bytes := [] } } := by
  decide

/-- Claim C2, counterexample: on a 34-byte frame with pairwise distinct bytes
the header produced by the code differs from the one the claimed slicing
(window bytes 4:28, seq_ctl bytes 28:30, body bytes 30:) would produce. -/
theorem c2_slicing_counterexample :
    Dot11Header.from_bytes c2input ≠ from_bytes_slicing_spec c2input := by
  decide

/-- Claim C2 as amended: for every accepted input the buffer is sliced as
bytes 0:2 control, bytes 2:4 duration, an 18-byte window bytes 4:22 handed to
address resolution, bytes 22:24 the stored seq_ctl, and bytes 24: the body,
short reads zero-padding their window. -/
theorem c2_slicing_amended (input : List Nat) (h : Dot11Header)
    (hok : Dot11Header.from_bytes input = RunResult.ok h) :
    FrameControl.from_bytes (sliceZ input 0 2) = RunResult.ok h.frame_control ∧
    h.duration = sliceZ input 2 2 ∧
    (h.dst, h.src, h.bssid) =
      Dot11Header.parse_address h.frame_control (sliceZ input 4 18) ∧
    h.seq_ctl = sliceZ input 22 2 ∧
    h.info = Dot11Header.parse_body h.frame_control (List.drop 24 input) := by
  rw [from_bytes_eq] at hok
  cases hfc : FrameControl.from_bytes (sliceZ input 0 2) with
  | panicked => rw [hfc] at hok; cases hok
  | error m => rw [hfc] at hok; cases hok
  | ok fc =>
    rw [hfc] at hok
    injection hok with he
    subst he
    exact ⟨rfl, rfl, rfl, rfl, rfl⟩


/-- Witness for the amended claim C2, at the concrete frame c2input. -/
theorem c2_slicing_amended_witness :
    Dot11Header.from_bytes c2input = RunResult.ok c2header ∧
    (FrameControl.from_bytes (sliceZ c2input 0 2) = RunResult.ok c2header.frame_control ∧
    c2header.duration = sliceZ c2input 2 2 ∧
    (c2header.dst, c2header.src, c2header.bssid) =
      Dot11Header.parse_address c2header.frame_control (sliceZ c2input 4 18) ∧
    c2header.seq_ctl = sliceZ c2input 22 2 ∧
    c2header.info = Dot11Header.parse_body c2header.frame_control (List.drop 24 c2input)) :=
  ⟨by decide, c2_slicing_amended c2input c2header (by decide)⟩

/-- Claim C4 (code bug): contrary to the claim that fewer than 24 bytes make
address resolution fail with TruncatedFieldError, FrameAddresses::from_bytes
on the empty slice succeeds, every missing byte reading as zero. -/
theorem c4_short_address_accepted :
    FrameAddresses.from_bytes [] = RunResult.ok
      { addr1 := { addr := "00:00:00:00:00:00" }
        addr2 := { addr := "00:00:00:00:00:00" }
        addr3 := { addr := "00:00:00:00:00:00" }
        addr4 := { addr := "00:00:00:00:00:00" } } := by
  decide

/-- Claim C9, counterexample: on the 1-byte slice the code panics (the
get_u8 assertion fails); it does not return an error outcome. -/
theorem c9_short_control_counterexample :
    FrameControl.from_bytes [0] = RunResult.panicked ∧
    (FrameControl.from_bytes [0]).isError = false := by
  decide

/-- Claim C9 as amended: for every input slice of fewer than 2 bytes,
FrameControl::from_bytes panics (failed get_u8 assertion) instead of
returning a typed ProtocolError; it returns no FrameControl. -/
theorem c9_short_control_amended (s : List Nat) (h : s.length < 2) :
    FrameControl.from_bytes s = RunResult.panicked := by
  rcases s with _ | ⟨a, _ | ⟨b, t⟩⟩
  · rfl
  · rfl
  · simp only [List.length_cons] at h
    omega

/-- Witness for the amended claim C9, at the concrete 1-byte slice. -/
theorem c9_short_control_amended_witness :
    ([7] : List Nat).length < 2 ∧ FrameControl.from_bytes [7] = RunResult.panicked :=
  ⟨by decide, c9_short_control_amended [7] (by decide)⟩

theorem frame_addresses_exact (a1 a2 a3 sc a4 : List Nat)
    (h1 : a1.length = 6) (h2 : a2.length = 6) (h3 : a3.length = 6)
    (hs : sc.length = 2) (h4 : a4.length = 6) :
    FrameAddresses.from_bytes (a1 ++ (a2 ++ (a3 ++ (sc ++ a4)))) =
      RunResult.ok
        { addr1 := MACField.from_slice a1
          addr2 := MACField.from_slice a2
          addr3 := MACField.from_slice a3
          addr4 := MACField.from_slice a4 } := by
  simp only [FrameAddresses.from_bytes,
    readFill_exact 6 a1 _ h1, readFill_exact 6 a2 _ h2,
    readFill_exact 6 a3 _ h3, readFill_exact 2 sc _ hs,
    readFill_all 6 a4 h4]

theorem parse_address_wds_src (fc : FrameControl) (w : List Nat)
    (ht : fc.to_ds = true) (hf : fc.from_ds = true) (hw : w.length = 18) :
    (Dot11Header.parse_address fc w).2.1 = "00:00:00:00:00:00" := by
  have h20 : List.drop 20 w = [] := List.drop_eq_nil_of_le (by omega)
  simp only [Dot11Header.parse_address, FrameAddresses.from_bytes, readFill,
    List.drop_drop, h20, ht, hf, Bool.and_self, if_true]
  decide

set_option maxRecDepth 2000 in
theorem frame_type_of_eq_bits :
    ∀ b : Fin 256, FrameControl.frame_type_of b.val = frame_type_bits_spec b.val := by
  decide

/-- Claim C3, counterexample: with both DS flags set and a 24-byte window of
bytes 0xAA, the src produced by address resolution is "aa:aa:aa:aa:00:00" —
not the formatted MAC of any 6 bytes of the window (which would be
"aa:aa:aa:aa:aa:aa"): a 24-byte window cannot hold a full addr4 after the
addr1, addr2, addr3, seq_ctl layout, so its last 2 bytes read as zero. -/
theorem c3_mapping_counterexample :
    Dot11Header.parse_address fcTT (List.replicate 24 170) =
      ("aa:aa:aa:aa:aa:aa", "aa:aa:aa:aa:00:00", "") ∧
    "aa:aa:aa:aa:00:00" ≠ (MACField.from_slice (List.replicate 6 170)).addr := by
  decide

/-- Claim C3 as amended: for every FrameControl and every window of at least
26 bytes laid out as addr1 (6), addr2 (6), addr3 (6), seq_ctl (2), addr4 (6),
address resolution produces exactly the claimed mapping: to_ds and from_ds
give dst=addr3, src=addr4, empty bssid; to_ds only gives dst=addr2,
src=addr3, bssid=addr1; from_ds only gives dst=addr3, src=addr1,
bssid=addr2; neither gives dst=addr1, src=addr2, bssid=addr3. -/
theorem c3_mapping_amended (fc : FrameControl) (a1 a2 a3 sc a4 : List Nat)
    (h1 : a1.length = 6) (h2 : a2.length = 6) (h3 : a3.length = 6)
    (hs : sc.length = 2) (h4 : a4.length = 6) :
    Dot11Header.parse_address fc (a1 ++ (a2 ++ (a3 ++ (sc ++ a4)))) =
      if fc.to_ds && fc.from_ds then
        ((MACField.from_slice a3).addr, (MACField.from_slice a4).addr, "")
      else if fc.to_ds then
        ((MACField.from_slice a2).addr, (MACField.from_slice a3).addr,
         (MACField.from_slice a1).addr)
      else if fc.from_ds then
        ((MACField.from_slice a3).addr, (MACField.from_slice a1).addr,
         (MACField.from_slice a2).addr)
      else
        ((MACField.from_slice a1).addr, (MACField.from_slice a2).addr,
         (MACField.from_slice a3).addr) := by
  simp only [Dot11Header.parse_address,
    frame_addresses_exact a1 a2 a3 sc a4 h1 h2 h3 hs h4]

/-- Witness for the amended claim C3, at a concrete 26-byte window and both
DS flags set. -/
theorem c3_mapping_amended_witness :
    Dot11Header.parse_address fcTT
        ([0, 1, 2, 3, 4, 5] ++ ([6, 7, 8, 9, 10, 11] ++
          ([12, 13, 14, 15, 16, 17] ++ ([18, 19] ++ [20, 21, 22, 23, 24, 25])))) =
      ((MACField.from_slice [12, 13, 14, 15, 16, 17]).addr,
       (MACField.from_slice [20, 21, 22, 23, 24, 25]).addr, "") := by
  rw [c3_mapping_amended fcTT [0, 1, 2, 3, 4, 5] [6, 7, 8, 9, 10, 11]
    [12, 13, 14, 15, 16, 17] [18, 19] [20, 21, 22, 23, 24, 25]
    rfl rfl rfl rfl rfl]
  decide

/-- Claim C5: whenever Dot11Header::from_bytes succeeds and the decoded
frame control has to_ds and from_ds both set, the src string is
"00:00:00:00:00:00" regardless of the input bytes: only an 18-byte window is
handed to address resolution, so the addr4 read finds nothing and leaves its
zero-initialized buffer untouched. -/
theorem c5_wds_src_zero (input : List Nat) (h : Dot11Header)
    (hok : Dot11Header.from_bytes input = RunResult.ok h)
    (ht : h.frame_control.to_ds = true) (hf : h.frame_control.from_ds = true) :
    h.src = "00:00:00:00:00:00" := by
  rw [from_bytes_eq] at hok
  cases hfc : FrameControl.from_bytes (sliceZ input 0 2) with
  | panicked => rw [hfc] at hok; cases hok
  | error m => rw [hfc] at hok; cases hok
  | ok fc =>
    rw [hfc] at hok
    injection hok with he
    subst he
    exact parse_address_wds_src fc _ ht hf (sliceZ_length input 4 18)

/-- Witness for claim C5, at a concrete 30-byte frame with both DS flags
set and nonzero address bytes. -/
theorem c5_wds_src_zero_witness :
    Dot11Header.from_bytes c5input = RunResult.ok c5header ∧
    c5header.src = "00:00:00:00:00:00" :=
  ⟨by decide, c5_wds_src_zero c5input c5header (by decide) (by decide) (by decide)⟩

/-- Claim C6: a 2-byte input whose first byte has nonzero low-2 bits fails
with the unsupported-protocol-version error, and one whose protocol-version
bits are zero decodes to a FrameControl. -/
theorem c6_protocol_version_gate (b0 b1 : Nat) :
    (FrameControl.protocol_version b0 ≠ 0 →
      FrameControl.from_bytes [b0, b1] = RunResult.error "Unknow protocol version") ∧
    (FrameControl.protocol_version b0 = 0 →
      ∃ fc, FrameControl.from_bytes [b0, b1] = RunResult.ok fc) := by
  constructor
  · intro hne
    simp [FrameControl.from_bytes, hne]
  · intro h0
    exact ⟨_, fc_from_bytes_ok b0 b1 h0⟩

/-- Witness for claim C6, at the concrete inputs [1, 0] (version 1, fails)
and [0, 0] (version 0, succeeds). -/
theorem c6_protocol_version_gate_witness :
    FrameControl.from_bytes [1, 0] = RunResult.error "Unknow protocol version" ∧
    ∃ fc, FrameControl.from_bytes [0, 0] = RunResult.ok fc :=
  ⟨(c6_protocol_version_gate 1 0).1 (by decide),
   (c6_protocol_version_gate 0 0).2 (by decide)⟩

/-- Claim C7: for every first byte with zero protocol-version bits, the
decoded frame subtype is the type-dependent table of spec 4.1(3) applied to
bits 7:4 of that byte — the Data table for the Data type (codes 9, 14, 15
falling to UnHandled) and the management table for every other type. -/
theorem c7_subtype_table (b0 b1 : Nat) (h0 : FrameControl.protocol_version b0 = 0) :
    ∃ fc, FrameControl.from_bytes [b0, b1] = RunResult.ok fc ∧
      fc.frame_subtype =
        subtype_code_table_spec fc.frame_type ((b0 &&& 0b11110000) >>> 4) := by
  refine ⟨_, fc_from_bytes_ok b0 b1 h0, ?_⟩
  show (match FrameControl.frame_type_of b0 with
    | FrameType.Management => FrameControl.frame_subtype_of b0
    | FrameType.Data => FrameControl.data_frame_subtype b0
    | FrameType.Control => FrameControl.frame_subtype_of b0
    | FrameType.Unknown => FrameControl.frame_subtype_of b0) =
      subtype_code_table_spec (FrameControl.frame_type_of b0) ((b0 &&& 0b11110000) >>> 4)
  cases hft : FrameControl.frame_type_of b0 <;> rfl

/-- Witness for claim C7, at first byte 0x98 (a Data frame with subtype
code 9, the table gap). -/
theorem c7_subtype_table_witness :
    FrameControl.protocol_version 152 = 0 ∧
    ∃ fc, FrameControl.from_bytes [152, 0] = RunResult.ok fc ∧
      fc.frame_subtype =
        subtype_code_table_spec fc.frame_type ((152 &&& 0b11110000) >>> 4) :=
  ⟨by decide, c7_subtype_table 152 0 (by decide)⟩

/-- Claim C8: the body dispatcher returns the Beacon, ProbeRequest,
ProbeResponse, AssociationRequest or AssociationResponse variant exactly when
the frame type is Management and the subtype is Beacon, ProbeReq, ProbeResp,
AssoReq or AssoResp respectively, and the UnHandled variant in every other
case; it is a total function and never fails the frame decode. -/
theorem c8_body_dispatch (fc : FrameControl) (input : List Nat) :
    (Dot11Header.parse_body fc input =
        BodyInformation.Beacon (Beacon.from_bytes input) ↔
      fc.frame_type = FrameType.Management ∧
        fc.frame_subtype = FrameSubType.Beacon) ∧
    (Dot11Header.parse_body fc input =
        BodyInformation.ProbeRequest (ProbeRequest.from_bytes input) ↔
      fc.frame_type = FrameType.Management ∧
        fc.frame_subtype = FrameSubType.ProbeReq) ∧
    (Dot11Header.parse_body fc input =
        BodyInformation.ProbeResponse (ProbeResponse.from_bytes input) ↔
      fc.frame_type = FrameType.Management ∧
        fc.frame_subtype = FrameSubType.ProbeResp) ∧
    (Dot11Header.parse_body fc input =
        BodyInformation.AssociationRequest (AssociationRequest.from_bytes input) ↔
      fc.frame_type = FrameType.Management ∧
        fc.frame_subtype = FrameSubType.AssoReq) ∧
    (Dot11Header.parse_body fc input =
        BodyInformation.AssociationResponse (AssociationResponse.from_bytes input) ↔
      fc.frame_type = FrameType.Management ∧
        fc.frame_subtype = FrameSubType.AssoResp) ∧
    (Dot11Header.parse_body fc input = BodyInformation.UnHandled true ↔
      ¬(fc.frame_type = FrameType.Management ∧
        (fc.frame_subtype = FrameSubType.Beacon ∨
         fc.frame_subtype = FrameSubType.ProbeReq ∨
         fc.frame_subtype = FrameSubType.ProbeResp ∨
         fc.frame_subtype = FrameSubType.AssoReq ∨
         fc.frame_subtype = FrameSubType.AssoResp))) := by
  obtain ⟨ft, fst, t1, t2, t3, t4, t5, t6, t7, t8⟩ := fc
  cases ft <;> cases fst <;>
    simp [Dot11Header.parse_body, Beacon.from_bytes, ProbeRequest.from_bytes,
      ProbeResponse.from_bytes, AssociationRequest.from_bytes,
      AssociationResponse.from_bytes]

/-- Claim C10: for every 2-byte input with zero protocol-version bits, the
decoded frame_type is a function solely of bits 3:2 of byte 0, mapped
0 Management, 1 Control, 2 Data, 3 Unknown; the second byte and every other
bit of byte 0 are irrelevant. -/
theorem c10_frame_type_bits (b0 b1 : Nat) (hlt : b0 < 256)
    (h0 : FrameControl.protocol_version b0 = 0) :
    ∃ fc, FrameControl.from_bytes [b0, b1] = RunResult.ok fc ∧
      fc.frame_type = frame_type_bits_spec b0 :=
  ⟨_, fc_from_bytes_ok b0 b1 h0, frame_type_of_eq_bits ⟨b0, hlt⟩⟩

/-- Witness for claim C10, at first byte 8 (type bits 2, a Data frame). -/
theorem c10_frame_type_bits_witness :
    8 < 256 ∧ FrameControl.protocol_version 8 = 0 ∧
    ∃ fc, FrameControl.from_bytes [8, 0] = RunResult.ok fc ∧
      fc.frame_type = frame_type_bits_spec 8 :=
  ⟨by decide, by decide, c10_frame_type_bits 8 0 (by decide) (by decide)⟩
